import Mathlib

/-!
Verification of the Lenovo Yoga Slim 7x EC driver
(`drivers/platform/arm64/lenovo-yoga-slim7x.c`).

The driver is embedded shallowly: every driver entry point becomes a Lean
function parameterised by an abstract register bus (the outcomes of the
`i2c_smbus_*` calls), and returns the trace of externally observable
actions it performs (lock operations, bus reads/writes, input events,
log records) together with its C return value.
-/

namespace YogaSlim7x

/-! ## Register addresses (from the `#define` table in the source) -/

def EC_IRQ_REASON_REG : Nat := 0x05
def EC_SUSPEND_RESUME_REG : Nat := 0x23
def EC_IRQ_ENABLE_REG : Nat := 0x35
def EC_BACKLIGHT_STATUS_REG : Nat := 0x83
def EC_MIC_MUTE_LED_REG : Nat := 0x84
def EC_AC_STATUS_REG : Nat := 0x90

/-! ## Values written to `EC_SUSPEND_RESUME_REG` -/

def EC_NOTIFY_SUSPEND_ENTER : Nat := 0x01
def EC_NOTIFY_SUSPEND_EXIT : Nat := 0x00
def EC_NOTIFY_SCREEN_OFF : Nat := 0x03
def EC_NOTIFY_SCREEN_ON : Nat := 0x04

/-! ## IRQ reason codes (from the `#define` table in the source) -/

def EC_IRQ_MICMUTE_BUTTON : Nat := 0x04
def EC_IRQ_FAN1_STATUS_CHANGE : Nat := 0x30
def EC_IRQ_FAN2_STATUS_CHANGE : Nat := 0x31
def EC_IRQ_FAN1_SPEED_CHANGE : Nat := 0x32
def EC_IRQ_FAN2_SPEED_CHANGE : Nat := 0x33
def EC_IRQ_THERMISTOR_1_TEMP_THRESHOLD_CROSS : Nat := 0x36
def EC_IRQ_LENOVO_SUPPORT_KEY : Nat := 0x90
def EC_IRQ_FN_Q : Nat := 0x91

/-- `KEY_MICMUTE` from `<linux/input-event-codes.h>` (248). -/
def KEY_MICMUTE : Nat := 248

/-- `-ENOMEM` is returned as `-(12 : Int)`. -/
def ENOMEM : Int := 12

/-- The `irqreturn_t` values of `<linux/irqreturn.h>`. -/
inductive irqreturn_t where
  | IRQ_NONE
  | IRQ_HANDLED
  | IRQ_WAKE_THREAD
deriving DecidableEq, Repr

/-- One externally observable action of the driver: mutex traffic on
`ec->lock`, a bus transaction, an input event pushed to `ec->idev`, a
kernel log record, or one of the probe-time registration steps. -/
inductive Act where
  | lockAcquire
  | lockRelease
  | busRead (addr : Nat)
  | busWrite (addr : Nat) (value : Nat)
  | reportKey (code : Nat) (value : Nat)
  | syncEvent
  | logErr
  | logInfo
  | allocEc
  | mutexInit
  | allocIdev
  | setCapability (evType : Nat) (code : Nat)
  | registerInput
  | requestIrq
deriving DecidableEq, Repr

/-- The abstract register bus: the outcome of
`i2c_smbus_read_byte_data` at each address (the read byte when `0 ≤` the
result, a negative errno otherwise) and of `i2c_smbus_write_byte_data`
for each address/value pair (`0` on success, a negative errno on
failure). -/
structure Bus where
  readByte : Nat → Int
  writeByte : Nat → Nat → Int

/-- A bus whose every read returns `r` and whose every write returns `w`. -/
def busConst (r w : Int) : Bus :=
  { readByte := fun _ => r, writeByte := fun _ _ => w }

def isBusAccess : Act → Bool
  | Act.busRead _ => true
  | Act.busWrite _ _ => true
  | _ => false

def isLockAct : Act → Bool
  | Act.lockAcquire => true
  | Act.lockRelease => true
  | _ => false

def isInputEvent : Act → Bool
  | Act.reportKey _ _ => true
  | Act.syncEvent => true
  | _ => false

/-- The input events (key reports and syncs) of a trace, in order. -/
def inputEvents (tr : List Act) : List Act :=
  tr.filter isInputEvent

/-- The bus transactions of a trace, in order. -/
def busAccesses (tr : List Act) : List Act :=
  tr.filter isBusAccess

/-- Helper for `busAccessesUnderLock`: `d` is the current lock depth. -/
def underLockAux : Nat → List Act → Bool
  | _, [] => true
  | d, Act.lockAcquire :: r => underLockAux (d + 1) r
  | d, Act.lockRelease :: r => underLockAux (d - 1) r
  | d, a :: r => (decide (0 < d) || !isBusAccess a) && underLockAux d r

/-- Every bus access in the trace happens while the `ec->lock` mutex is
held (i.e. strictly between an acquire and its matching release). -/
def busAccessesUnderLock (tr : List Act) : Bool :=
  underLockAux 0 tr

/-! ## The driver entry points -/

/-- `yoga_slim7x_ec_irq`: the threaded interrupt handler.  It takes
`ec->lock` with `guard(mutex)` (released on every exit path), reads the
IRQ reason register once, and either logs the read failure, emits the
micmute press/sync/release/sync sequence, or logs the unhandled reason.
It returns `IRQ_HANDLED` on every path. -/
def yoga_slim7x_ec_irq (bus : Bus) : List Act × irqreturn_t :=
  let val := bus.readByte EC_IRQ_REASON_REG
  if val < 0 then
    ([Act.lockAcquire, Act.busRead EC_IRQ_REASON_REG, Act.logErr,
      Act.lockRelease], irqreturn_t.IRQ_HANDLED)
  else if val = (EC_IRQ_MICMUTE_BUTTON : Int) then
    ([Act.lockAcquire, Act.busRead EC_IRQ_REASON_REG,
      Act.reportKey KEY_MICMUTE 1, Act.syncEvent,
      Act.reportKey KEY_MICMUTE 0, Act.syncEvent,
      Act.lockRelease], irqreturn_t.IRQ_HANDLED)
  else
    ([Act.lockAcquire, Act.busRead EC_IRQ_REASON_REG, Act.logInfo,
      Act.lockRelease], irqreturn_t.IRQ_HANDLED)

/-- The outcomes of the host-framework calls made by
`yoga_slim7x_ec_probe`: whether the two `devm` allocations succeed, the
return values of `input_register_device` and
`devm_request_threaded_irq`, and the bus used for the final
interrupt-enable write. -/
structure ProbeEnv where
  allocEcOk : Bool
  allocIdevOk : Bool
  inputRegisterRet : Int
  requestIrqRet : Int
  bus : Bus

/-- `yoga_slim7x_ec_probe`: allocates the device state, initialises the
mutex, allocates and registers the input device (capability
`EV_KEY`/`KEY_MICMUTE`), requests the threaded IRQ, and finally writes
`0x01` to `EC_IRQ_ENABLE_REG`; each step's failure returns immediately. -/
def yoga_slim7x_ec_probe (env : ProbeEnv) : List Act × Int :=
  if !env.allocEcOk then
    ([Act.allocEc], -ENOMEM)
  else if !env.allocIdevOk then
    ([Act.allocEc, Act.mutexInit, Act.allocIdev], -ENOMEM)
  else
    let base := [Act.allocEc, Act.mutexInit, Act.allocIdev,
                 Act.setCapability 0x01 KEY_MICMUTE, Act.registerInput]
    if env.inputRegisterRet < 0 then
      (base, env.inputRegisterRet)
    else if env.requestIrqRet < 0 then
      (base ++ [Act.requestIrq], env.requestIrqRet)
    else
      let ret := env.bus.writeByte EC_IRQ_ENABLE_REG 0x01
      let full := base ++ [Act.requestIrq, Act.busWrite EC_IRQ_ENABLE_REG 0x01]
      if ret < 0 then (full, ret) else (full, 0)

/-- A probe environment in which every host-framework call succeeds. -/
def probeEnvAllOk : ProbeEnv :=
  { allocEcOk := true, allocIdevOk := true,
    inputRegisterRet := 0, requestIrqRet := 0, bus := busConst 0 0 }

/-- `yoga_slim7x_ec_remove`: writes `0x00` to `EC_IRQ_ENABLE_REG`; a
failure is only logged with `dev_err` (the function returns `void`). -/
def yoga_slim7x_ec_remove (bus : Bus) : List Act :=
  let ret := bus.writeByte EC_IRQ_ENABLE_REG 0x00
  if ret < 0 then
    [Act.busWrite EC_IRQ_ENABLE_REG 0x00, Act.logErr]
  else
    [Act.busWrite EC_IRQ_ENABLE_REG 0x00]

/-- `yoga_slim7x_ec_suspend`: writes `EC_NOTIFY_SCREEN_OFF` then
`EC_NOTIFY_SUSPEND_ENTER` to `EC_SUSPEND_RESUME_REG`; each write's
nonzero result is returned immediately (`if (ret) return ret;`). -/
def yoga_slim7x_ec_suspend (bus : Bus) : List Act × Int :=
  let ret := bus.writeByte EC_SUSPEND_RESUME_REG EC_NOTIFY_SCREEN_OFF
  if ret ≠ 0 then
    ([Act.busWrite EC_SUSPEND_RESUME_REG EC_NOTIFY_SCREEN_OFF], ret)
  else
    let ret2 := bus.writeByte EC_SUSPEND_RESUME_REG EC_NOTIFY_SUSPEND_ENTER
    if ret2 ≠ 0 then
      ([Act.busWrite EC_SUSPEND_RESUME_REG EC_NOTIFY_SCREEN_OFF,
        Act.busWrite EC_SUSPEND_RESUME_REG EC_NOTIFY_SUSPEND_ENTER], ret2)
    else
      ([Act.busWrite EC_SUSPEND_RESUME_REG EC_NOTIFY_SCREEN_OFF,
        Act.busWrite EC_SUSPEND_RESUME_REG EC_NOTIFY_SUSPEND_ENTER], 0)

/-- `yoga_slim7x_ec_resume`: writes `EC_NOTIFY_SUSPEND_EXIT` then
`EC_NOTIFY_SCREEN_ON` to `EC_SUSPEND_RESUME_REG`; each write's nonzero
result is returned immediately (`if (ret) return ret;`). -/
def yoga_slim7x_ec_resume (bus : Bus) : List Act × Int :=
  let ret := bus.writeByte EC_SUSPEND_RESUME_REG EC_NOTIFY_SUSPEND_EXIT
  if ret ≠ 0 then
    ([Act.busWrite EC_SUSPEND_RESUME_REG EC_NOTIFY_SUSPEND_EXIT], ret)
  else
    let ret2 := bus.writeByte EC_SUSPEND_RESUME_REG EC_NOTIFY_SCREEN_ON
    if ret2 ≠ 0 then
      ([Act.busWrite EC_SUSPEND_RESUME_REG EC_NOTIFY_SUSPEND_EXIT,
        Act.busWrite EC_SUSPEND_RESUME_REG EC_NOTIFY_SCREEN_ON], ret2)
    else
      ([Act.busWrite EC_SUSPEND_RESUME_REG EC_NOTIFY_SUSPEND_EXIT,
        Act.busWrite EC_SUSPEND_RESUME_REG EC_NOTIFY_SCREEN_ON], 0)

/-! ## Theorems -/

/-- C1: whenever the reason-register read succeeds and returns the
micmute code (0x04), the interrupt handler emits exactly the input-event
sequence press(KEY_MICMUTE), sync, release(KEY_MICMUTE), sync, in that
order, and no other input event; the handler returns `IRQ_HANDLED`. -/
theorem irq_micmute_emits_press_sync_release_sync (bus : Bus)
    (h : bus.readByte EC_IRQ_REASON_REG = (EC_IRQ_MICMUTE_BUTTON : Int)) :
    inputEvents (yoga_slim7x_ec_irq bus).1 =
      [Act.reportKey KEY_MICMUTE 1, Act.syncEvent,
       Act.reportKey KEY_MICMUTE 0, Act.syncEvent] ∧
    (yoga_slim7x_ec_irq bus).2 = irqreturn_t.IRQ_HANDLED := by
  unfold yoga_slim7x_ec_irq
  rw [h]
  norm_num [EC_IRQ_MICMUTE_BUTTON, inputEvents, isInputEvent]

/-- Witness for C1: a concrete bus whose reason read returns 0x04. -/
theorem irq_micmute_emits_press_sync_release_sync_witness :
    inputEvents (yoga_slim7x_ec_irq (busConst 4 0)).1 =
      [Act.reportKey KEY_MICMUTE 1, Act.syncEvent,
       Act.reportKey KEY_MICMUTE 0, Act.syncEvent] ∧
    (yoga_slim7x_ec_irq (busConst 4 0)).2 = irqreturn_t.IRQ_HANDLED :=
  irq_micmute_emits_press_sync_release_sync (busConst 4 0) rfl

/-- C5: whenever the reason-register read fails (negative result), the
interrupt handler emits no input event, records the failure with
`dev_err`, and still returns `IRQ_HANDLED`. -/
theorem irq_read_failure_no_event_still_handled (bus : Bus)
    (h : bus.readByte EC_IRQ_REASON_REG < 0) :
    inputEvents (yoga_slim7x_ec_irq bus).1 = [] ∧
    Act.logErr ∈ (yoga_slim7x_ec_irq bus).1 ∧
    (yoga_slim7x_ec_irq bus).2 = irqreturn_t.IRQ_HANDLED := by
  unfold yoga_slim7x_ec_irq
  rw [if_pos h]
  refine ⟨rfl, ?_, rfl⟩
  simp

/-- Witness for C5: a concrete bus whose reason read fails with -5. -/
theorem irq_read_failure_no_event_still_handled_witness :
    inputEvents (yoga_slim7x_ec_irq (busConst (-5) 0)).1 = [] ∧
    Act.logErr ∈ (yoga_slim7x_ec_irq (busConst (-5) 0)).1 ∧
    (yoga_slim7x_ec_irq (busConst (-5) 0)).2 = irqreturn_t.IRQ_HANDLED :=
  irq_read_failure_no_event_still_handled (busConst (-5) 0) (by decide)

/-- C6: for every successfully read reason-register value other than the
micmute code 0x04 (hence all fan, thermal and function-key codes), the
interrupt handler emits no input event and only records the value with
`dev_info`. -/
theorem irq_unmapped_code_no_event (bus : Bus)
    (h0 : 0 ≤ bus.readByte EC_IRQ_REASON_REG)
    (h4 : bus.readByte EC_IRQ_REASON_REG ≠ (EC_IRQ_MICMUTE_BUTTON : Int)) :
    inputEvents (yoga_slim7x_ec_irq bus).1 = [] ∧
    Act.logInfo ∈ (yoga_slim7x_ec_irq bus).1 ∧
    (yoga_slim7x_ec_irq bus).2 = irqreturn_t.IRQ_HANDLED := by
  unfold yoga_slim7x_ec_irq
  rw [if_neg (not_lt.mpr h0), if_neg h4]
  refine ⟨rfl, ?_, rfl⟩
  simp

/-- Witness for C6: a concrete bus whose reason read returns 0x36
(a thermistor threshold-crossing code). -/
theorem irq_unmapped_code_no_event_witness :
    inputEvents (yoga_slim7x_ec_irq (busConst 0x36 0)).1 = [] ∧
    Act.logInfo ∈ (yoga_slim7x_ec_irq (busConst 0x36 0)).1 ∧
    (yoga_slim7x_ec_irq (busConst 0x36 0)).2 = irqreturn_t.IRQ_HANDLED :=
  irq_unmapped_code_no_event (busConst 0x36 0) (by decide) (by decide)

/-- C10: for every possible bus outcome (read failure, the micmute code,
or any other value), the interrupt handler returns `IRQ_HANDLED` and its
bus traffic is exactly one read of the reason register and no write. -/
theorem irq_always_handled_single_read (bus : Bus) :
    busAccesses (yoga_slim7x_ec_irq bus).1 = [Act.busRead EC_IRQ_REASON_REG] ∧
    (yoga_slim7x_ec_irq bus).2 = irqreturn_t.IRQ_HANDLED := by
  unfold yoga_slim7x_ec_irq
  dsimp only
  split_ifs <;> exact ⟨rfl, rfl⟩

/-- C2 (counterexample): the claim says every register access of
suspend is performed while holding the `ec->lock` mutex, but
`yoga_slim7x_ec_suspend` never acquires any lock: on a bus where both
writes succeed, its bus accesses are not under the lock. -/
theorem suspend_not_under_lock_counterexample :
    busAccessesUnderLock (yoga_slim7x_ec_suspend (busConst 0 0)).1 = false := by
  decide

/-- C2 (amended): the interrupt handler performs its register access
while holding `ec->lock`, but suspend and resume perform their register
writes without any lock operation at all, so their bus traffic is not
serialized against a concurrent dispatch by that lock. -/
theorem irq_locked_suspend_resume_unlocked (bus : Bus) :
    busAccessesUnderLock (yoga_slim7x_ec_irq bus).1 = true ∧
    (yoga_slim7x_ec_suspend bus).1.filter isLockAct = [] ∧
    (yoga_slim7x_ec_resume bus).1.filter isLockAct = [] := by
  unfold yoga_slim7x_ec_irq yoga_slim7x_ec_suspend yoga_slim7x_ec_resume
  dsimp only
  split_ifs <;> exact ⟨rfl, rfl, rfl⟩

/-- C3: suspend issues the ScreenOff write strictly before the
SuspendEnter write; if the ScreenOff write fails (nonzero result), the
SuspendEnter write is never attempted, no compensating write is issued,
and the failure is returned; if both writes succeed the return value is
the second write's result 0. -/
theorem suspend_screen_off_before_suspend_enter (bus : Bus) :
    (yoga_slim7x_ec_suspend bus).1 =
      (if bus.writeByte EC_SUSPEND_RESUME_REG EC_NOTIFY_SCREEN_OFF = 0 then
        [Act.busWrite EC_SUSPEND_RESUME_REG EC_NOTIFY_SCREEN_OFF,
         Act.busWrite EC_SUSPEND_RESUME_REG EC_NOTIFY_SUSPEND_ENTER]
      else
        [Act.busWrite EC_SUSPEND_RESUME_REG EC_NOTIFY_SCREEN_OFF]) ∧
    (yoga_slim7x_ec_suspend bus).2 =
      (if bus.writeByte EC_SUSPEND_RESUME_REG EC_NOTIFY_SCREEN_OFF = 0 then
        bus.writeByte EC_SUSPEND_RESUME_REG EC_NOTIFY_SUSPEND_ENTER
      else
        bus.writeByte EC_SUSPEND_RESUME_REG EC_NOTIFY_SCREEN_OFF) := by
  unfold yoga_slim7x_ec_suspend
  dsimp only
  split_ifs <;> simp_all

/-- C4: resume issues the SuspendExit write strictly before the
ScreenOn write; if the SuspendExit write fails (nonzero result), the
ScreenOn write is never attempted and the failure is returned; if both
writes succeed the return value is the second write's result 0. -/
theorem resume_suspend_exit_before_screen_on (bus : Bus) :
    (yoga_slim7x_ec_resume bus).1 =
      (if bus.writeByte EC_SUSPEND_RESUME_REG EC_NOTIFY_SUSPEND_EXIT = 0 then
        [Act.busWrite EC_SUSPEND_RESUME_REG EC_NOTIFY_SUSPEND_EXIT,
         Act.busWrite EC_SUSPEND_RESUME_REG EC_NOTIFY_SCREEN_ON]
      else
        [Act.busWrite EC_SUSPEND_RESUME_REG EC_NOTIFY_SUSPEND_EXIT]) ∧
    (yoga_slim7x_ec_resume bus).2 =
      (if bus.writeByte EC_SUSPEND_RESUME_REG EC_NOTIFY_SUSPEND_EXIT = 0 then
        bus.writeByte EC_SUSPEND_RESUME_REG EC_NOTIFY_SCREEN_ON
      else
        bus.writeByte EC_SUSPEND_RESUME_REG EC_NOTIFY_SUSPEND_EXIT) := by
  unfold yoga_slim7x_ec_resume
  dsimp only
  split_ifs <;> simp_all

/-- C7: when both probe allocations succeed, the interrupt-enable write
to the EC is only ever the last element of the probe trace; if
`input_register_device` or `devm_request_threaded_irq` fails, probe
returns that failure and performs no bus access at all (in particular no
enable write); if both succeed, the trace ends with `registerInput`,
then `requestIrq`, then the enable write. -/
theorem probe_enables_irq_last (env : ProbeEnv)
    (h1 : env.allocEcOk = true) (h2 : env.allocIdevOk = true) :
    ((yoga_slim7x_ec_probe env).1.getLast? =
        some (Act.busWrite EC_IRQ_ENABLE_REG 0x01) ∨
      Act.busWrite EC_IRQ_ENABLE_REG 0x01 ∉ (yoga_slim7x_ec_probe env).1) ∧
    (env.inputRegisterRet < 0 →
      (yoga_slim7x_ec_probe env).2 = env.inputRegisterRet ∧
      busAccesses (yoga_slim7x_ec_probe env).1 = []) ∧
    (0 ≤ env.inputRegisterRet → env.requestIrqRet < 0 →
      (yoga_slim7x_ec_probe env).2 = env.requestIrqRet ∧
      busAccesses (yoga_slim7x_ec_probe env).1 = []) ∧
    (0 ≤ env.inputRegisterRet → 0 ≤ env.requestIrqRet →
      (yoga_slim7x_ec_probe env).1 =
        [Act.allocEc, Act.mutexInit, Act.allocIdev,
         Act.setCapability 0x01 KEY_MICMUTE, Act.registerInput,
         Act.requestIrq, Act.busWrite EC_IRQ_ENABLE_REG 0x01]) := by
  unfold yoga_slim7x_ec_probe
  rw [h1, h2]
  dsimp only [Bool.not_true]
  rw [if_neg (by decide), if_neg (by decide)]
  split_ifs with ha hb hc
  · exact ⟨Or.inr (by simp), fun _ => ⟨rfl, rfl⟩,
      fun h _ => absurd ha (not_lt.mpr h),
      fun h _ => absurd ha (not_lt.mpr h)⟩
  · exact ⟨Or.inr (by simp), fun h => absurd h ha,
      fun _ _ => ⟨rfl, rfl⟩,
      fun _ h => absurd hb (not_lt.mpr h)⟩
  · exact ⟨Or.inl rfl, fun h => absurd h ha,
      fun _ h => absurd h hb, fun _ _ => rfl⟩
  · exact ⟨Or.inl rfl, fun h => absurd h ha,
      fun _ h => absurd h hb, fun _ _ => rfl⟩

/-- Witness for C7: a probe environment in which every host-framework
call succeeds. -/
theorem probe_enables_irq_last_witness :
    ((yoga_slim7x_ec_probe probeEnvAllOk).1.getLast? =
        some (Act.busWrite EC_IRQ_ENABLE_REG 0x01) ∨
      Act.busWrite EC_IRQ_ENABLE_REG 0x01 ∉ (yoga_slim7x_ec_probe probeEnvAllOk).1) ∧
    (probeEnvAllOk.inputRegisterRet < 0 →
      (yoga_slim7x_ec_probe probeEnvAllOk).2 = probeEnvAllOk.inputRegisterRet ∧
      busAccesses (yoga_slim7x_ec_probe probeEnvAllOk).1 = []) ∧
    (0 ≤ probeEnvAllOk.inputRegisterRet → probeEnvAllOk.requestIrqRet < 0 →
      (yoga_slim7x_ec_probe probeEnvAllOk).2 = probeEnvAllOk.requestIrqRet ∧
      busAccesses (yoga_slim7x_ec_probe probeEnvAllOk).1 = []) ∧
    (0 ≤ probeEnvAllOk.inputRegisterRet → 0 ≤ probeEnvAllOk.requestIrqRet →
      (yoga_slim7x_ec_probe probeEnvAllOk).1 =
        [Act.allocEc, Act.mutexInit, Act.allocIdev,
         Act.setCapability 0x01 KEY_MICMUTE, Act.registerInput,
         Act.requestIrq, Act.busWrite EC_IRQ_ENABLE_REG 0x01]) :=
  probe_enables_irq_last probeEnvAllOk rfl rfl

/-- C8: remove attempts exactly one bus access, the write of `0x00` to
`EC_IRQ_ENABLE_REG`; a failure of that write is recorded with exactly
one `dev_err` record and is not propagated (the function returns
`void`, here: the trace is the whole result), and remove completes on
both outcomes. -/
theorem remove_disables_irq_swallows_failure (bus : Bus) :
    busAccesses (yoga_slim7x_ec_remove bus) =
      [Act.busWrite EC_IRQ_ENABLE_REG 0x00] ∧
    (yoga_slim7x_ec_remove bus).count Act.logErr =
      (if bus.writeByte EC_IRQ_ENABLE_REG 0x00 < 0 then 1 else 0) := by
  unfold yoga_slim7x_ec_remove
  dsimp only
  split_ifs <;> exact ⟨rfl, rfl⟩

/-- C9: the register addresses and notification bytes match the spec's
table (reason register 0x05, suspend/resume register 0x23, IRQ-enable
register 0x35; SuspendEnter=0x01, SuspendExit=0x00, ScreenOff=0x03,
ScreenOn=0x04), and 0x04 (micmute) is the only reason-register outcome
for which the interrupt handler emits any input event. -/
theorem register_map_micmute_only_action :
    EC_IRQ_REASON_REG = 0x05 ∧ EC_SUSPEND_RESUME_REG = 0x23 ∧
    EC_IRQ_ENABLE_REG = 0x35 ∧ EC_NOTIFY_SUSPEND_ENTER = 0x01 ∧
    EC_NOTIFY_SUSPEND_EXIT = 0x00 ∧ EC_NOTIFY_SCREEN_OFF = 0x03 ∧
    EC_NOTIFY_SCREEN_ON = 0x04 ∧ EC_IRQ_MICMUTE_BUTTON = 0x04 ∧
    ∀ bus : Bus, inputEvents (yoga_slim7x_ec_irq bus).1 ≠ [] ↔
      bus.readByte EC_IRQ_REASON_REG = (EC_IRQ_MICMUTE_BUTTON : Int) := by
  refine ⟨rfl, rfl, rfl, rfl, rfl, rfl, rfl, rfl, fun bus => ?_⟩
  unfold yoga_slim7x_ec_irq
  dsimp only
  split_ifs with h1 h2
  · exact ⟨fun h => absurd rfl h,
      fun hv => absurd (hv ▸ h1) (by norm_num [EC_IRQ_MICMUTE_BUTTON])⟩
  · exact ⟨fun _ => h2, fun _ => by decide⟩
  · exact ⟨fun h => absurd rfl h, fun hv => absurd hv h2⟩

end YogaSlim7x
